import Mathlib

/-!
# Verification of the Garmin Connect web API wrapper (src/api/main.py)

Shallow embedding of the FastAPI handlers in `src/api/main.py`.  The upstream
`garminconnect` client library is external; its behaviour is modelled by an
oracle record `World` giving the outcome of each upstream call a handler can
make.  Python exceptions are modelled by the inductive `Exc`; a handler either
returns a JSON body (200), raises an `HTTPException` (status plus detail), or
lets an exception escape unhandled.  Alongside its response, each handler
produces a trace of token-store effects (reads, interactive credential logins,
resume calls, token dumps) used to state frame conditions.
-/

/-- Python exception categories relevant to the service: the three
`garminconnect` exception classes it imports, `FileNotFoundError`, and a
catch-all for any other exception carrying its `str(err)` message. -/
inductive Exc where
  | fileNotFound
  | authError
  | tooManyRequests
  | connectionError
  | other (msg : String)
deriving DecidableEq, Repr

/-- `str(err)` for an exception, as used in the 500 detail. -/
def excStr : Exc → String
  | .fileNotFound => "FileNotFoundError"
  | .authError => "GarminConnectAuthenticationError"
  | .tooManyRequests => "GarminConnectTooManyRequestsError"
  | .connectionError => "GarminConnectConnectionError"
  | .other msg => msg

/-- An opaque JSON value returned by the upstream library; the service never
inspects its structure. -/
structure JsonValue where
  raw : String
deriving DecidableEq, Repr

/-- The opaque MFA challenge state (`client_state`), a dict produced by the
upstream library and treated as an opaque token by the service. -/
structure ClientState where
  data : String
deriving DecidableEq, Repr

/-- A byte, for activity-download payloads. -/
abbrev Byte := Fin 256

/-- A raw byte string as returned by `garmin.download_activity`. -/
abbrev Bytes := List Byte

/-- `ActivityDownloadFormat`: the enumerated `fmt` query values accepted by
`GET /activities/activity_id/download` (validated by FastAPI's Query enum). -/
inductive ActivityDownloadFormat where
  | ORIGINAL
  | TCX
  | GPX
  | KML
  | CSV
deriving DecidableEq, Repr

/-- The `fmt` string echoed back in the download response. -/
def fmtName : ActivityDownloadFormat → String
  | .ORIGINAL => "ORIGINAL"
  | .TCX => "TCX"
  | .GPX => "GPX"
  | .KML => "KML"
  | .CSV => "CSV"

/-- Request body of `POST /login` (pydantic `LoginRequest`). -/
structure LoginRequest where
  email : Option String := none
  password : Option String := none
  is_cn : Bool := false
  return_on_mfa : Bool := false
deriving DecidableEq, Repr

/-- Response body of `POST /login` and `POST /login/resume`
(pydantic `LoginResponse`). -/
structure LoginResponse where
  status : String
  client_state : Option ClientState := none
deriving DecidableEq, Repr

/-- Request body of `POST /login/resume` (pydantic `ResumeLoginRequest`). -/
structure ResumeLoginRequest where
  client_state : ClientState
  mfa_code : String
deriving DecidableEq, Repr

/-- Response body of `GET /summary` (pydantic `SummaryResponse`). -/
structure SummaryResponse where
  data : JsonValue
deriving DecidableEq, Repr

/-- Response body of `GET /activities` (pydantic `ActivitiesResponse`). -/
structure ActivitiesResponse where
  data : JsonValue
deriving DecidableEq, Repr

/-- Response body of `GET /activities/activity_id/download`. -/
structure DownloadResponse where
  activity_id : String
  format : String
  data_base64 : String
deriving DecidableEq, Repr

/-- Response body of `GET /whoami`. -/
structure WhoamiResponse where
  full_name : JsonValue
  unit_system : JsonValue
deriving DecidableEq, Repr

/-- Response body of `GET /healthz`. -/
structure HealthzResponse where
  status : String
deriving DecidableEq, Repr

/-- Outcome of serving one request: a 200 body, a raised `HTTPException`
(status code and detail string), or an exception escaping the handler
unmapped. -/
inductive Response (α : Type) where
  | ok (body : α)
  | httpError (status : Nat) (detail : String)
  | unhandled (e : Exc)
deriving DecidableEq, Repr

/-- Token-store/credential side effects a handler can perform, recorded as a
trace: `readTokenstore p` for `garmin.login(p)` (loading a token store),
`credentialLogin` for an interactive `garmin.login()` with credentials,
`resumeLoginCall` for `garmin.resume_login(...)`, and `dumpTokens p` for
`garmin.garth.dump(p)` (attempting to write the token store at `p`). -/
inductive Effect where
  | readTokenstore (path : String)
  | credentialLogin
  | resumeLoginCall
  | dumpTokens (path : String)
deriving DecidableEq, Repr

/-- The environment and upstream-library oracle: the value of the
`GARMINTOKENS` environment variable, the expansion of `~/.garminconnect`, and
the outcome of each upstream call the handlers can make. -/
structure World where
  /-- `os.getenv("GARMINTOKENS")`: `none` when the variable is unset. -/
  GARMINTOKENS : Option String
  /-- `os.path.expanduser("~/.garminconnect")`. -/
  expanduser_garminconnect : String
  /-- Outcome of `garmin.login(tokenstore)`: loading and validating the token
  store at the given path. `Except.ok ()` means a usable session. -/
  garmin_login_token : String → Except Exc Unit
  /-- Outcome of `garmin.login()` on a `Garmin` built from the request's
  credentials: a pair `(token1, token2)` where `token1 = "needs_mfa"` signals
  an MFA challenge with `token2` the client state, or an exception. -/
  garmin_login_creds : LoginRequest → Except Exc (String × ClientState)
  /-- Outcome of `garmin.resume_login(client_state, mfa_code)`. -/
  garmin_resume_login : ClientState → String → Except Exc Unit
  /-- Outcome of `garmin.garth.dump(path)`: persisting tokens. -/
  garth_dump : String → Except Exc Unit
  /-- Outcome of `garmin.get_user_summary(cdate)`. -/
  get_user_summary : String → Except Exc JsonValue
  /-- Outcome of `garmin.get_activities(start, limit, activitytype)`. -/
  get_activities : Int → Int → Option String → Except Exc JsonValue
  /-- Outcome of `garmin.download_activity(activity_id, dl_fmt)`. -/
  download_activity : String → ActivityDownloadFormat → Except Exc Bytes
  /-- Outcome of `garmin.get_full_name()`. -/
  get_full_name : Except Exc JsonValue
  /-- Outcome of `garmin.get_unit_system()`. -/
  get_unit_system : Except Exc JsonValue

/-- Python `a or b` on an optional string and a string: `getenv(...) or
default` yields the default when the variable is unset or set to the empty
string (falsy). -/
def orElseStr (a : Option String) (b : String) : String :=
  match a with
  | some s => if s = "" then b else s
  | none => b

/-- The token-store path every handler computes:
`os.getenv("GARMINTOKENS") or os.path.expanduser("~/.garminconnect")`. -/
def resolveTokenstore (w : World) : String :=
  orElseStr w.GARMINTOKENS w.expanduser_garminconnect

/-- `_instantiate_api_from_tokenstore`: builds a `Garmin()` and tries
`garmin.login(tokenstore)`.  Returns `ok true` for a usable session (the
source returns the `garmin` object), `ok false` for `None` (the source
catches `FileNotFoundError` and `GarminConnectAuthenticationError`), and
propagates any other exception. -/
def instantiate_api_from_tokenstore (w : World) (tokenstore : String) :
    Except Exc Bool :=
  match w.garmin_login_token tokenstore with
  | .ok _ => .ok true
  | .error .fileNotFound => .ok false
  | .error .authError => .ok false
  | .error e => .error e

/-- `_raise_from_err`: translates an upstream exception into the
`HTTPException` it raises.  It never returns normally, so it is modelled as
producing the terminal `Response` directly. -/
def raise_from_err (err : Exc) : Response α :=
  match err with
  | .authError => .httpError 401 "Authentication error"
  | .tooManyRequests => .httpError 429 "Too many requests"
  | .connectionError => .httpError 502 "Upstream connection error"
  | e => .httpError 500 (excStr e)

/-- The standard base64 alphabet used by Python's `base64.b64encode`. -/
def b64Alphabet : List Char :=
  ['A', 'B', 'C', 'D', 'E', 'F', 'G', 'H', 'I', 'J', 'K', 'L', 'M',
   'N', 'O', 'P', 'Q', 'R', 'S', 'T', 'U', 'V', 'W', 'X', 'Y', 'Z',
   'a', 'b', 'c', 'd', 'e', 'f', 'g', 'h', 'i', 'j', 'k', 'l', 'm',
   'n', 'o', 'p', 'q', 'r', 's', 't', 'u', 'v', 'w', 'x', 'y', 'z',
   '0', '1', '2', '3', '4', '5', '6', '7', '8', '9', '+', '/']

/-- Character encoding a six-bit group. -/
def b64Char (n : Nat) : Char :=
  b64Alphabet.getD n '?'

/-- Inverse of `b64Char`: the six-bit value of an alphabet character. -/
def b64Sextet (c : Char) : Option (Fin 64) :=
  (List.finRange 64).find? (fun n => b64Char n.val == c)

/-- `base64.b64encode` on a byte string, as a character list: big-endian
6-bit groups of each 3-byte block, with `=` padding for a 1- or 2-byte
tail. -/
def b64encodeChars : Bytes → List Char
  | b0 :: b1 :: b2 :: rest =>
      b64Char (b0.val / 4) ::
      b64Char (b0.val % 4 * 16 + b1.val / 16) ::
      b64Char (b1.val % 16 * 4 + b2.val / 64) ::
      b64Char (b2.val % 64) :: b64encodeChars rest
  | [b0, b1] =>
      [b64Char (b0.val / 4), b64Char (b0.val % 4 * 16 + b1.val / 16),
       b64Char (b1.val % 16 * 4), '=']
  | [b0] =>
      [b64Char (b0.val / 4), b64Char (b0.val % 4 * 16), '=', '=']
  | [] => []

/-- `base64.b64encode(raw).decode("ascii")`. -/
def b64encode (bs : Bytes) : String :=
  ⟨b64encodeChars bs⟩

/-- Modelled from the spec: standard base64 decoding of a padded base64
character string (the "base64-decoding" the spec's round-trip property
applies to the `data_base64` field), yielding `none` on malformed input. -/
def b64decodeChars : List Char → Option Bytes
  | [] => some []
  | c0 :: c1 :: c2 :: c3 :: rest =>
      match b64Sextet c0, b64Sextet c1 with
      | some s0, some s1 =>
          if c2 = '=' then
            if c3 = '=' ∧ rest = [] then
              some [⟨s0.val * 4 + s1.val / 16, by
                have h0 := s0.isLt; have h1 := s1.isLt; omega⟩]
            else none
          else
            match b64Sextet c2 with
            | some s2 =>
                if c3 = '=' then
                  if rest = [] then
                    some [⟨s0.val * 4 + s1.val / 16, by
                            have h0 := s0.isLt; have h1 := s1.isLt; omega⟩,
                          ⟨s1.val % 16 * 16 + s2.val / 4, by
                            have h1 := s1.isLt; have h2 := s2.isLt; omega⟩]
                  else none
                else
                  match b64Sextet c3 with
                  | some s3 =>
                      match b64decodeChars rest with
                      | some bs =>
                          some (⟨s0.val * 4 + s1.val / 16, by
                                  have h0 := s0.isLt; have h1 := s1.isLt; omega⟩ ::
                                ⟨s1.val % 16 * 16 + s2.val / 4, by
                                  have h1 := s1.isLt; have h2 := s2.isLt; omega⟩ ::
                                ⟨s2.val % 4 * 64 + s3.val, by
                                  have h2 := s2.isLt; have h3 := s3.isLt; omega⟩ :: bs)
                      | none => none
                  | none => none
            | none => none
      | _, _ => none
  | _ => none

/-- Base64 decoding of a string. -/
def b64decode (s : String) : Option Bytes :=
  b64decodeChars s.data

/-- `GET /healthz`. -/
def healthz : Response HealthzResponse × List Effect :=
  (.ok ⟨"ok"⟩, [])

/-- The body of `POST /login` from line 76 on: interactive credential login,
the `needs_mfa` sentinel check, best-effort token dump, and the surrounding
try/except mapping failures through `_raise_from_err`.  `tr` is the trace
accumulated by the preceding token-store reuse attempt (if any). -/
def login_after_tokenstore (w : World) (body : LoginRequest) (tr : List Effect) :
    Response LoginResponse × List Effect :=
  match w.garmin_login_creds body with
  | .ok (token1, token2) =>
      if token1 = "needs_mfa" then
        (.ok ⟨"needs_mfa", some token2⟩, tr ++ [.credentialLogin])
      else
        let tokenstore := orElseStr w.GARMINTOKENS w.expanduser_garminconnect
        match w.garth_dump tokenstore with
        | .ok _ => (.ok ⟨"ok", none⟩, tr ++ [.credentialLogin, .dumpTokens tokenstore])
        | .error _ => (.ok ⟨"ok", none⟩, tr ++ [.credentialLogin, .dumpTokens tokenstore])
  | .error err => (raise_from_err err, tr ++ [.credentialLogin])

/-- `POST /login`: when `GARMINTOKENS` is set to a truthy (non-empty) value,
first try to reuse the stored session at that path (this call sits outside
the try/except, so an uncaught exception from it escapes); otherwise, or when
reuse yields no session, fall through to the interactive credential login. -/
def login (w : World) (body : LoginRequest) : Response LoginResponse × List Effect :=
  match w.GARMINTOKENS with
  | some s =>
      if s = "" then
        login_after_tokenstore w body []
      else
        match instantiate_api_from_tokenstore w s with
        | .error e => (.unhandled e, [.readTokenstore s])
        | .ok true => (.ok ⟨"ok", none⟩, [.readTokenstore s])
        | .ok false => login_after_tokenstore w body [.readTokenstore s]
  | none => login_after_tokenstore w body []

/-- `POST /login/resume`: builds `Garmin(return_on_mfa=True)`, resumes the
pending MFA login with the caller-supplied client state and code, performs
the best-effort token dump on success, and maps failures through
`_raise_from_err`. -/
def resume_login (w : World) (body : ResumeLoginRequest) :
    Response LoginResponse × List Effect :=
  match w.garmin_resume_login body.client_state body.mfa_code with
  | .ok _ =>
      let tokenstore := orElseStr w.GARMINTOKENS w.expanduser_garminconnect
      match w.garth_dump tokenstore with
      | .ok _ => (.ok ⟨"ok", none⟩, [.resumeLoginCall, .dumpTokens tokenstore])
      | .error _ => (.ok ⟨"ok", none⟩, [.resumeLoginCall, .dumpTokens tokenstore])
  | .error err => (raise_from_err err, [.resumeLoginCall])

/-- `GET /summary`: resolve the token-store path, attempt session reuse
(outside the try/except), 401 when no session, else call
`garmin.get_user_summary(cdate)` inside the try/except. -/
def get_user_summary (w : World) (cdate : String) :
    Response SummaryResponse × List Effect :=
  let tokenstore := orElseStr w.GARMINTOKENS w.expanduser_garminconnect
  match instantiate_api_from_tokenstore w tokenstore with
  | .error e => (.unhandled e, [.readTokenstore tokenstore])
  | .ok false => (.httpError 401 "Not logged in. Use /login first.", [.readTokenstore tokenstore])
  | .ok true =>
      match w.get_user_summary cdate with
      | .ok d => (.ok ⟨d⟩, [.readTokenstore tokenstore])
      | .error err => (raise_from_err err, [.readTokenstore tokenstore])

/-- `GET /activities`: same session-reuse preamble, then
`garmin.get_activities(start, limit, activitytype)` inside the try/except. -/
def get_activities (w : World) (start limit : Int) (activitytype : Option String) :
    Response ActivitiesResponse × List Effect :=
  let tokenstore := orElseStr w.GARMINTOKENS w.expanduser_garminconnect
  match instantiate_api_from_tokenstore w tokenstore with
  | .error e => (.unhandled e, [.readTokenstore tokenstore])
  | .ok false => (.httpError 401 "Not logged in. Use /login first.", [.readTokenstore tokenstore])
  | .ok true =>
      match w.get_activities start limit activitytype with
      | .ok d => (.ok ⟨d⟩, [.readTokenstore tokenstore])
      | .error err => (raise_from_err err, [.readTokenstore tokenstore])

/-- `GET /activities/activity_id/download`: same session-reuse preamble,
then `garmin.download_activity(activity_id, dl_fmt)` inside the try/except,
with the raw bytes base64-encoded into the JSON envelope.  (`getattr` on the
validated enum name always succeeds, modelled by `fmt` already being the
enum.) -/
def download_activity (w : World) (activity_id : String) (fmt : ActivityDownloadFormat) :
    Response DownloadResponse × List Effect :=
  let tokenstore := orElseStr w.GARMINTOKENS w.expanduser_garminconnect
  match instantiate_api_from_tokenstore w tokenstore with
  | .error e => (.unhandled e, [.readTokenstore tokenstore])
  | .ok false => (.httpError 401 "Not logged in. Use /login first.", [.readTokenstore tokenstore])
  | .ok true =>
      match w.download_activity activity_id fmt with
      | .ok raw => (.ok ⟨activity_id, fmtName fmt, b64encode raw⟩, [.readTokenstore tokenstore])
      | .error err => (raise_from_err err, [.readTokenstore tokenstore])

/-- `GET /whoami`: same session-reuse preamble, then `garmin.get_full_name()`
and `garmin.get_unit_system()` inside the try/except. -/
def whoami (w : World) : Response WhoamiResponse × List Effect :=
  let tokenstore := orElseStr w.GARMINTOKENS w.expanduser_garminconnect
  match instantiate_api_from_tokenstore w tokenstore with
  | .error e => (.unhandled e, [.readTokenstore tokenstore])
  | .ok false => (.httpError 401 "Not logged in. Use /login first.", [.readTokenstore tokenstore])
  | .ok true =>
      match w.get_full_name with
      | .error err => (raise_from_err err, [.readTokenstore tokenstore])
      | .ok fn =>
          match w.get_unit_system with
          | .error err => (raise_from_err err, [.readTokenstore tokenstore])
          | .ok us => (.ok ⟨fn, us⟩, [.readTokenstore tokenstore])

/-! ## Claim-support definitions -/

/-- The five outcomes of the spec's fault table, together with success:
200, 401 authentication, 429 rate limit, 502 upstream connection,
500 generic, and 401 no-session. -/
def mappedOutcome : Response α → Bool
  | .ok _ => true
  | .httpError s d =>
      (s == 401 && (d == "Authentication error" || d == "Not logged in. Use /login first.")) ||
      (s == 429 && d == "Too many requests") ||
      (s == 502 && d == "Upstream connection error") ||
      s == 500
  | .unhandled _ => false

/-- A response of a handler whose session-reuse call sits outside the
try/except: either one of the mapped outcomes, or an unmapped escape of a
token-store load failure that is not one of the two caught exception
classes. -/
def handlerEscapeOnly (w : World) (r : Response α) : Prop :=
  mappedOutcome r = true ∨
    ∃ e, r = .unhandled e ∧
      w.garmin_login_token (resolveTokenstore w) = .error e ∧
      e ≠ .fileNotFound ∧ e ≠ .authError

/-- A benign concrete world: token store present and valid, all upstream
calls succeed. -/
def W0 : World where
  GARMINTOKENS := some "/tokens"
  expanduser_garminconnect := "~/.garminconnect"
  garmin_login_token := fun _ => .ok ()
  garmin_login_creds := fun _ => .ok ("oauth1", ⟨"cs"⟩)
  garmin_resume_login := fun _ _ => .ok ()
  garth_dump := fun _ => .ok ()
  get_user_summary := fun _ => .ok ⟨"summary"⟩
  get_activities := fun _ _ _ => .ok ⟨"activities"⟩
  download_activity := fun _ _ => .ok [72, 105, 33]
  get_full_name := .ok ⟨"Jane Doe"⟩
  get_unit_system := .ok ⟨"metric"⟩

/-- World whose token-store load raises an upstream connection error. -/
def WC1 : World := { W0 with garmin_login_token := fun _ => .error .connectionError }

/-- World with no token store on disk. -/
def WNL : World := { W0 with garmin_login_token := fun _ => .error .fileNotFound }

/-- World with `GARMINTOKENS` set to the empty string. -/
def WC3 : World := { W0 with GARMINTOKENS := some "" }

/-- World whose activity listing hits the upstream rate limit. -/
def W429 : World := { W0 with get_activities := fun _ _ _ => .error .tooManyRequests }

/-- World with no `GARMINTOKENS` and credentials that provoke an MFA
challenge. -/
def WMFA : World :=
  { W0 with GARMINTOKENS := none,
            garmin_login_creds := fun _ => .ok ("needs_mfa", ⟨"cs"⟩) }

/-- World with no `GARMINTOKENS` and a failing token-store write. -/
def WD : World :=
  { W0 with GARMINTOKENS := none,
            garth_dump := fun _ => .error (.other "disk full") }

/-- The stored-session reuse path of `POST /login` yields no session: the
environment variable is unset, empty, or the store fails to load with one of
the two caught exception classes. -/
def noStoredSession (w : World) : Prop :=
  match w.GARMINTOKENS with
  | none => True
  | some s => s = "" ∨ instantiate_api_from_tokenstore w s = .ok false

/-- Modelled from the claim's words: the token-store path is "the value of
the single environment variable when set, otherwise a fixed per-user default
path". -/
def claimedTokenstorePath (w : World) : String :=
  match w.GARMINTOKENS with
  | some s => s
  | none => w.expanduser_garminconnect

/-! ## Base64 correctness -/

theorem b64Sextet_b64Char : ∀ n : Fin 64, b64Sextet (b64Char n.val) = some n := by decide

theorem b64Sextet_b64Char_of_lt (x : Nat) (h : x < 64) : b64Sextet (b64Char x) = some ⟨x, h⟩ :=
  b64Sextet_b64Char ⟨x, h⟩

theorem b64Char_ne_pad_aux : ∀ n : Fin 64, b64Char n.val ≠ '=' := by decide

theorem b64Char_ne_pad (x : Nat) (h : x < 64) : ¬(b64Char x = '=') :=
  b64Char_ne_pad_aux ⟨x, h⟩

/-- Standard base64 decoding inverts the encoding used by the download
endpoint, byte for byte. -/
theorem b64_roundtrip_chars : ∀ bs : Bytes, b64decodeChars (b64encodeChars bs) = some bs
  | [] => rfl
  | [b0] => by
      have h0 := b0.isLt
      show b64decodeChars [b64Char (b0.val / 4), b64Char (b0.val % 4 * 16), '=', '='] = some [b0]
      rw [b64decodeChars, b64Sextet_b64Char_of_lt _ (by omega), b64Sextet_b64Char_of_lt _ (by omega)]
      dsimp only
      simp [Fin.ext_iff]
      omega
  | [b0, b1] => by
      have h0 := b0.isLt
      have h1 := b1.isLt
      show b64decodeChars [b64Char (b0.val / 4), b64Char (b0.val % 4 * 16 + b1.val / 16),
        b64Char (b1.val % 16 * 4), '='] = some [b0, b1]
      rw [b64decodeChars, b64Sextet_b64Char_of_lt _ (by omega), b64Sextet_b64Char_of_lt _ (by omega)]
      dsimp only
      rw [if_neg (b64Char_ne_pad _ (by omega))]
      rw [b64Sextet_b64Char_of_lt _ (by omega)]
      dsimp only
      simp [Fin.ext_iff]
      omega
  | b0 :: b1 :: b2 :: rest => by
      have ih := b64_roundtrip_chars rest
      have h0 := b0.isLt
      have h1 := b1.isLt
      have h2 := b2.isLt
      show b64decodeChars (b64Char (b0.val / 4) :: b64Char (b0.val % 4 * 16 + b1.val / 16) ::
        b64Char (b1.val % 16 * 4 + b2.val / 64) :: b64Char (b2.val % 64) :: b64encodeChars rest) =
        some (b0 :: b1 :: b2 :: rest)
      rw [b64decodeChars, b64Sextet_b64Char_of_lt _ (by omega), b64Sextet_b64Char_of_lt _ (by omega)]
      dsimp only
      rw [if_neg (b64Char_ne_pad _ (by omega))]
      rw [b64Sextet_b64Char_of_lt _ (by omega)]
      dsimp only
      rw [if_neg (b64Char_ne_pad _ (by omega))]
      rw [b64Sextet_b64Char_of_lt _ (by omega)]
      dsimp only
      rw [ih]
      simp [Fin.ext_iff]
      omega

theorem b64_roundtrip (bs : Bytes) : b64decode (b64encode bs) = some bs :=
  b64_roundtrip_chars bs

/-! ## Outcome classification and concrete worlds -/

theorem mappedOutcome_raise_from_err (e : Exc) :
    mappedOutcome (raise_from_err (α := α) e) = true := by
  cases e <;> rfl


/-! ## Helper lemmas -/

theorem instantiate_cases (w : World) (ts : String) :
    instantiate_api_from_tokenstore w ts = .ok true ∨
    instantiate_api_from_tokenstore w ts = .ok false ∨
    ∃ e, instantiate_api_from_tokenstore w ts = .error e ∧
      w.garmin_login_token ts = .error e ∧ e ≠ .fileNotFound ∧ e ≠ .authError := by
  rcases h : w.garmin_login_token ts with e | u
  · cases e
    · right; left; simp [instantiate_api_from_tokenstore, h]
    · right; left; simp [instantiate_api_from_tokenstore, h]
    · right; right
      exact ⟨.tooManyRequests, by simp [instantiate_api_from_tokenstore, h], rfl, by simp, by simp⟩
    · right; right
      exact ⟨.connectionError, by simp [instantiate_api_from_tokenstore, h], rfl, by simp, by simp⟩
    · rename_i msg
      right; right
      exact ⟨.other msg, by simp [instantiate_api_from_tokenstore, h], rfl, by simp, by simp⟩
  · left; simp [instantiate_api_from_tokenstore, h]

theorem mappedOutcome_login_after (w : World) (body : LoginRequest) (tr : List Effect) :
    mappedOutcome (login_after_tokenstore w body tr).1 = true := by
  simp only [login_after_tokenstore]
  rcases h : w.garmin_login_creds body with err | ⟨t1, t2⟩
  · exact mappedOutcome_raise_from_err err
  · by_cases ht : t1 = "needs_mfa"
    · simp [ht, mappedOutcome]
    · simp only [ht, if_neg ht]
      rcases w.garth_dump (orElseStr w.GARMINTOKENS w.expanduser_garminconnect) with e | u <;> rfl

theorem login_after_fst_tr (w : World) (body : LoginRequest) (tr tr' : List Effect) :
    (login_after_tokenstore w body tr).1 = (login_after_tokenstore w body tr').1 := by
  simp only [login_after_tokenstore]
  rcases h : w.garmin_login_creds body with err | ⟨t1, t2⟩
  · rfl
  · by_cases ht : t1 = "needs_mfa"
    · simp [ht]
    · simp only [if_neg ht]
      rcases w.garth_dump (orElseStr w.GARMINTOKENS w.expanduser_garminconnect) with e | u <;> rfl

theorem get_user_summary_trace (w : World) (cdate : String) :
    (get_user_summary w cdate).2 = [Effect.readTokenstore (resolveTokenstore w)] := by
  simp only [get_user_summary]
  rcases instantiate_api_from_tokenstore w (orElseStr w.GARMINTOKENS w.expanduser_garminconnect) with e | b
  · rfl
  · cases b
    · rfl
    · rcases w.get_user_summary cdate with err | d <;> rfl

theorem get_activities_trace (w : World) (start limit : Int) (atype : Option String) :
    (get_activities w start limit atype).2 = [Effect.readTokenstore (resolveTokenstore w)] := by
  simp only [get_activities]
  rcases instantiate_api_from_tokenstore w (orElseStr w.GARMINTOKENS w.expanduser_garminconnect) with e | b
  · rfl
  · cases b
    · rfl
    · rcases w.get_activities start limit atype with err | d <;> rfl

theorem download_activity_trace (w : World) (aid : String) (fmt : ActivityDownloadFormat) :
    (download_activity w aid fmt).2 = [Effect.readTokenstore (resolveTokenstore w)] := by
  simp only [download_activity]
  rcases instantiate_api_from_tokenstore w (orElseStr w.GARMINTOKENS w.expanduser_garminconnect) with e | b
  · rfl
  · cases b
    · rfl
    · rcases w.download_activity aid fmt with err | d <;> rfl

theorem whoami_trace (w : World) :
    (whoami w).2 = [Effect.readTokenstore (resolveTokenstore w)] := by
  simp only [whoami]
  rcases instantiate_api_from_tokenstore w (orElseStr w.GARMINTOKENS w.expanduser_garminconnect) with e | b
  · rfl
  · cases b
    · rfl
    · rcases w.get_full_name with err | fn
      · rfl
      · rcases w.get_unit_system with err | us <;> rfl

theorem get_user_summary_escapeOnly (w : World) (cdate : String) :
    handlerEscapeOnly w (get_user_summary w cdate).1 := by
  rcases instantiate_cases w (resolveTokenstore w) with h | h | ⟨e, h, hload, h1, h2⟩ <;>
    simp only [resolveTokenstore] at h <;>
    simp only [get_user_summary, handlerEscapeOnly, h]
  · rcases h2 : w.get_user_summary cdate with err | d
    · exact Or.inl (mappedOutcome_raise_from_err err)
    · exact Or.inl rfl
  · exact Or.inl rfl
  · exact Or.inr ⟨e, rfl, hload, h1, h2⟩

theorem get_activities_escapeOnly (w : World) (start limit : Int) (atype : Option String) :
    handlerEscapeOnly w (get_activities w start limit atype).1 := by
  rcases instantiate_cases w (resolveTokenstore w) with h | h | ⟨e, h, hload, h1, h2⟩ <;>
    simp only [resolveTokenstore] at h <;>
    simp only [get_activities, handlerEscapeOnly, h]
  · rcases h2 : w.get_activities start limit atype with err | d
    · exact Or.inl (mappedOutcome_raise_from_err err)
    · exact Or.inl rfl
  · exact Or.inl rfl
  · exact Or.inr ⟨e, rfl, hload, h1, h2⟩

theorem download_activity_escapeOnly (w : World) (aid : String) (fmt : ActivityDownloadFormat) :
    handlerEscapeOnly w (download_activity w aid fmt).1 := by
  rcases instantiate_cases w (resolveTokenstore w) with h | h | ⟨e, h, hload, h1, h2⟩ <;>
    simp only [resolveTokenstore] at h <;>
    simp only [download_activity, handlerEscapeOnly, h]
  · rcases h2 : w.download_activity aid fmt with err | d
    · exact Or.inl (mappedOutcome_raise_from_err err)
    · exact Or.inl rfl
  · exact Or.inl rfl
  · exact Or.inr ⟨e, rfl, hload, h1, h2⟩

theorem whoami_escapeOnly (w : World) :
    handlerEscapeOnly w (whoami w).1 := by
  rcases instantiate_cases w (resolveTokenstore w) with h | h | ⟨e, h, hload, h1, h2⟩ <;>
    simp only [resolveTokenstore] at h <;>
    simp only [whoami, handlerEscapeOnly, h]
  · rcases h2 : w.get_full_name with err | fn
    · exact Or.inl (mappedOutcome_raise_from_err err)
    · rcases h3 : w.get_unit_system with err | us
      · exact Or.inl (mappedOutcome_raise_from_err err)
      · exact Or.inl rfl
  · exact Or.inl rfl
  · exact Or.inr ⟨e, rfl, hload, h1, h2⟩

theorem instantiate_none_of_caught (w : World)
    (h : w.garmin_login_token (resolveTokenstore w) = .error .fileNotFound ∨
         w.garmin_login_token (resolveTokenstore w) = .error .authError) :
    instantiate_api_from_tokenstore w (resolveTokenstore w) = .ok false := by
  rcases h with h | h <;> simp [instantiate_api_from_tokenstore, h]

theorem get_user_summary_401 (w : World) (cdate : String)
    (h : instantiate_api_from_tokenstore w (resolveTokenstore w) = .ok false) :
    (get_user_summary w cdate).1 = .httpError 401 "Not logged in. Use /login first." := by
  simp only [resolveTokenstore] at h
  simp [get_user_summary, h]

theorem get_activities_401 (w : World) (start limit : Int) (atype : Option String)
    (h : instantiate_api_from_tokenstore w (resolveTokenstore w) = .ok false) :
    (get_activities w start limit atype).1 = .httpError 401 "Not logged in. Use /login first." := by
  simp only [resolveTokenstore] at h
  simp [get_activities, h]

theorem download_activity_401 (w : World) (aid : String) (fmt : ActivityDownloadFormat)
    (h : instantiate_api_from_tokenstore w (resolveTokenstore w) = .ok false) :
    (download_activity w aid fmt).1 = .httpError 401 "Not logged in. Use /login first." := by
  simp only [resolveTokenstore] at h
  simp [download_activity, h]

theorem whoami_401 (w : World)
    (h : instantiate_api_from_tokenstore w (resolveTokenstore w) = .ok false) :
    (whoami w).1 = .httpError 401 "Not logged in. Use /login first." := by
  simp only [resolveTokenstore] at h
  simp [whoami, h]


theorem login_fst_of_noStoredSession (w : World) (body : LoginRequest)
    (h : noStoredSession w) :
    (login w body).1 = (login_after_tokenstore w body []).1 := by
  unfold noStoredSession at h
  simp only [login]
  rcases hg : w.GARMINTOKENS with _ | s
  · rfl
  · rw [hg] at h
    rcases h with h | h
    · simp [h]
    · by_cases hs : s = ""
      · simp [hs]
      · simp only [if_neg hs, h]
        exact login_after_fst_tr w body [Effect.readTokenstore s] []

theorem login_after_needs_mfa (w : World) (body : LoginRequest) (tr : List Effect)
    (cs : ClientState)
    (h : w.garmin_login_creds body = .ok ("needs_mfa", cs)) :
    login_after_tokenstore w body tr =
      (.ok ⟨"needs_mfa", some cs⟩, tr ++ [Effect.credentialLogin]) := by
  simp [login_after_tokenstore, h]

theorem login_after_ok (w : World) (body : LoginRequest) (tr : List Effect)
    (t1 : String) (cs : ClientState)
    (h : w.garmin_login_creds body = .ok (t1, cs)) (ht : t1 ≠ "needs_mfa") :
    login_after_tokenstore w body tr =
      (.ok ⟨"ok", none⟩,
       tr ++ [Effect.credentialLogin, Effect.dumpTokens (resolveTokenstore w)]) := by
  simp only [login_after_tokenstore, h, if_neg ht, resolveTokenstore]
  rcases w.garth_dump (orElseStr w.GARMINTOKENS w.expanduser_garminconnect) with e | u <;> rfl

theorem login_after_err (w : World) (body : LoginRequest) (tr : List Effect)
    (e : Exc) (h : w.garmin_login_creds body = .error e) :
    login_after_tokenstore w body tr =
      (raise_from_err e, tr ++ [Effect.credentialLogin]) := by
  simp [login_after_tokenstore, h]

theorem login_after_ok_shape (w : World) (body : LoginRequest) (tr : List Effect)
    (r : LoginResponse) (h : (login_after_tokenstore w body tr).1 = .ok r) :
    r = ⟨"ok", none⟩ ∨ ∃ cs, r = ⟨"needs_mfa", some cs⟩ := by
  rcases hc : w.garmin_login_creds body with e | ⟨t1, cs⟩
  · rw [login_after_err w body tr e hc] at h
    exfalso
    cases t : raise_from_err (α := LoginResponse) e <;> rw [t] at h <;> cases e <;>
      simp [raise_from_err] at t h ⊢
  · by_cases ht : t1 = "needs_mfa"
    · subst ht
      rw [login_after_needs_mfa w body tr cs hc] at h
      exact Or.inr ⟨cs, by injection h with h'; exact h'.symm⟩
    · rw [login_after_ok w body tr t1 cs hc ht] at h
      exact Or.inl (by injection h with h'; exact h'.symm)

theorem login_ok_shape (w : World) (body : LoginRequest) (r : LoginResponse)
    (h : (login w body).1 = .ok r) :
    r = ⟨"ok", none⟩ ∨ ∃ cs, r = ⟨"needs_mfa", some cs⟩ := by
  simp only [login] at h
  rcases hg : w.GARMINTOKENS with _ | s <;> simp only [hg] at h
  · exact login_after_ok_shape w body [] r h
  · by_cases hs : s = ""
    · rw [if_pos hs] at h
      exact login_after_ok_shape w body [] r h
    · rw [if_neg hs] at h
      rcases hi : instantiate_api_from_tokenstore w s with e | b <;> rw [hi] at h
      · simp at h
      · cases b
        · exact login_after_ok_shape w body [Effect.readTokenstore s] r h
        · simp at h
          exact Or.inl h.symm

theorem resume_login_success (w : World) (rbody : ResumeLoginRequest)
    (h : w.garmin_resume_login rbody.client_state rbody.mfa_code = .ok ()) :
    resume_login w rbody =
      (.ok ⟨"ok", none⟩,
       [Effect.resumeLoginCall, Effect.dumpTokens (resolveTokenstore w)]) := by
  simp only [resume_login, h, resolveTokenstore]
  rcases w.garth_dump (orElseStr w.GARMINTOKENS w.expanduser_garminconnect) with e | u <;> rfl

theorem resume_login_err (w : World) (rbody : ResumeLoginRequest) (e : Exc)
    (h : w.garmin_resume_login rbody.client_state rbody.mfa_code = .error e) :
    resume_login w rbody = (raise_from_err e, [Effect.resumeLoginCall]) := by
  simp [resume_login, h]

theorem mappedOutcome_resume (w : World) (rbody : ResumeLoginRequest) :
    mappedOutcome (resume_login w rbody).1 = true := by
  rcases h : w.garmin_resume_login rbody.client_state rbody.mfa_code with e | u
  · rw [resume_login_err w rbody e h]
    exact mappedOutcome_raise_from_err e
  · rw [resume_login_success w rbody h]
    rfl

theorem resume_ok_shape (w : World) (rbody : ResumeLoginRequest) (r : LoginResponse)
    (h : (resume_login w rbody).1 = .ok r) : r = ⟨"ok", none⟩ := by
  rcases hr : w.garmin_resume_login rbody.client_state rbody.mfa_code with e | u
  · rw [resume_login_err w rbody e hr] at h
    exfalso
    cases e <;> simp [raise_from_err] at h
  · rw [resume_login_success w rbody hr] at h
    injection h with h'
    exact h'.symm

theorem instantiate_error_inv (w : World) (ts : String) (e : Exc)
    (h : instantiate_api_from_tokenstore w ts = .error e) :
    w.garmin_login_token ts = .error e ∧ e ≠ .fileNotFound ∧ e ≠ .authError := by
  rcases instantiate_cases w ts with h' | h' | ⟨e', h', hl, h1, h2⟩
  · rw [h'] at h; exact absurd h (by simp)
  · rw [h'] at h; exact absurd h (by simp)
  · rw [h'] at h
    injection h with h
    subst h
    exact ⟨hl, h1, h2⟩

theorem login_eq_fresh (w : World) (body : LoginRequest)
    (hg : w.GARMINTOKENS = none) :
    login w body = login_after_tokenstore w body [] := by
  simp only [login, hg]

theorem login_eq_fresh_empty (w : World) (body : LoginRequest)
    (hg : w.GARMINTOKENS = some "") :
    login w body = login_after_tokenstore w body [] := by
  simp [login, hg]

theorem login_eq_reuse_some (w : World) (body : LoginRequest) (s : String)
    (hg : w.GARMINTOKENS = some s) (hs : s ≠ "") :
    login w body =
      (match instantiate_api_from_tokenstore w s with
       | .error e => (.unhandled e, [Effect.readTokenstore s])
       | .ok true => (.ok ⟨"ok", none⟩, [Effect.readTokenstore s])
       | .ok false => login_after_tokenstore w body [Effect.readTokenstore s]) := by
  simp only [login, hg, if_neg hs]

theorem resolveTokenstore_some (w : World) (s : String)
    (hg : w.GARMINTOKENS = some s) (hs : s ≠ "") : resolveTokenstore w = s := by
  simp [resolveTokenstore, orElseStr, hg, hs]

theorem login_escapeOnly (w : World) (body : LoginRequest) :
    handlerEscapeOnly w (login w body).1 := by
  rcases hg : w.GARMINTOKENS with _ | s
  · rw [login_eq_fresh w body hg]
    exact Or.inl (mappedOutcome_login_after w body [])
  · by_cases hs : s = ""
    · subst hs
      rw [login_eq_fresh_empty w body hg]
      exact Or.inl (mappedOutcome_login_after w body [])
    · rw [login_eq_reuse_some w body s hg hs]
      rcases hi : instantiate_api_from_tokenstore w s with e | b
      · obtain ⟨hl, h1, h2⟩ := instantiate_error_inv w s e hi
        right
        refine ⟨e, rfl, ?_, h1, h2⟩
        rw [resolveTokenstore_some w s hg hs]
        exact hl
      · cases b
        · exact Or.inl (mappedOutcome_login_after w body [Effect.readTokenstore s])
        · exact Or.inl rfl

/-- C1 (amended): for every endpoint, every outcome is one of the five mapped
outcomes (or a 200 success) — except that an exception raised while loading
the token store during credential resolution that is not `FileNotFoundError`
or an authentication error (e.g. an upstream connection error inside
`_instantiate_api_from_tokenstore`) escapes the handler unmapped, because
that call sits outside the handlers' try/except. -/
theorem all_endpoints_mapped_or_tokenstore_escape
    (w : World) (body : LoginRequest) (rbody : ResumeLoginRequest)
    (cdate : String) (start limit : Int) (atype : Option String)
    (aid : String) (fmt : ActivityDownloadFormat) :
    mappedOutcome (healthz).1 = true ∧
    handlerEscapeOnly w (login w body).1 ∧
    mappedOutcome (resume_login w rbody).1 = true ∧
    handlerEscapeOnly w (get_user_summary w cdate).1 ∧
    handlerEscapeOnly w (get_activities w start limit atype).1 ∧
    handlerEscapeOnly w (download_activity w aid fmt).1 ∧
    handlerEscapeOnly w (whoami w).1 :=
  ⟨rfl, login_escapeOnly w body, mappedOutcome_resume w rbody,
   get_user_summary_escapeOnly w cdate, get_activities_escapeOnly w start limit atype,
   download_activity_escapeOnly w aid fmt, whoami_escapeOnly w⟩

/-- C1 counterexample: with a valid `GARMINTOKENS` path whose load raises an
upstream connection error, `GET /summary` does not resolve to any of the five
mapped outcomes — the exception escapes `_instantiate_api_from_tokenstore`
unmapped, contradicting the claim that the mapping is total. -/
theorem summary_connection_error_escapes_unmapped :
    (get_user_summary WC1 "2024-01-01").1 = .unhandled .connectionError ∧
    mappedOutcome (get_user_summary WC1 "2024-01-01").1 = false := by
  constructor <;> rfl

/-- C4: the fault translator `_raise_from_err` maps authentication errors to
401 "Authentication error", rate-limit errors to 429 "Too many requests"
(never 500), connection errors to 502 "Upstream connection error", and any
other exception to 500 with the stringified message — independent of the
operation; in particular a rate-limited `/activities` call surfaces as
429. -/
theorem raise_from_err_table :
    (∀ (α : Type) (err : Exc), raise_from_err (α := α) err =
      if err = .authError then .httpError 401 "Authentication error"
      else if err = .tooManyRequests then .httpError 429 "Too many requests"
      else if err = .connectionError then .httpError 502 "Upstream connection error"
      else .httpError 500 (excStr err)) ∧
    (∀ (w : World) (start limit : Int) (atype : Option String),
      w.garmin_login_token (resolveTokenstore w) = .ok () →
      w.get_activities start limit atype = .error .tooManyRequests →
      (get_activities w start limit atype).1 = .httpError 429 "Too many requests") := by
  constructor
  · intro α err
    cases err <;> rfl
  · intro w start limit atype h1 h2
    have hi : instantiate_api_from_tokenstore w (resolveTokenstore w) = .ok true := by
      simp [instantiate_api_from_tokenstore, h1]
    simp only [resolveTokenstore] at hi
    simp [get_activities, hi, h2, raise_from_err]

/-- C4 witness: a rate-limited activity listing with a valid session returns
429 "Too many requests". -/
theorem raise_from_err_table_witness :
    W429.garmin_login_token (resolveTokenstore W429) = .ok () ∧
    W429.get_activities 0 20 none = .error .tooManyRequests ∧
    (get_activities W429 0 20 none).1 = .httpError 429 "Too many requests" :=
  ⟨rfl, rfl, raise_from_err_table.2 W429 0 20 none rfl rfl⟩

/-- C10: the fault translator never returns normally: for every exception it
raises an `HTTPException` whose status is 401, 429, 502 or 500. -/
theorem raise_from_err_always_http_error (α : Type) (err : Exc) :
    ∃ s d, raise_from_err (α := α) err = .httpError s d ∧
      (s = 401 ∨ s = 429 ∨ s = 502 ∨ s = 500) := by
  cases err
  · exact ⟨500, _, rfl, by simp⟩
  · exact ⟨401, _, rfl, by simp⟩
  · exact ⟨429, _, rfl, by simp⟩
  · exact ⟨502, _, rfl, by simp⟩
  · exact ⟨500, _, rfl, by simp⟩

/-- C2: read-only endpoints attempt only token-store reuse: they never
perform an interactive credential login, and when the stored session is
missing or rejected they return 401 "Not logged in. Use /login first.". -/
theorem readonly_endpoints_reuse_only
    (w : World) (cdate : String) (start limit : Int) (atype : Option String)
    (aid : String) (fmt : ActivityDownloadFormat) :
    (Effect.credentialLogin ∉ (get_user_summary w cdate).2 ∧
     Effect.credentialLogin ∉ (get_activities w start limit atype).2 ∧
     Effect.credentialLogin ∉ (download_activity w aid fmt).2 ∧
     Effect.credentialLogin ∉ (whoami w).2) ∧
    ((w.garmin_login_token (resolveTokenstore w) = .error .fileNotFound ∨
      w.garmin_login_token (resolveTokenstore w) = .error .authError) →
     (get_user_summary w cdate).1 = .httpError 401 "Not logged in. Use /login first." ∧
     (get_activities w start limit atype).1 = .httpError 401 "Not logged in. Use /login first." ∧
     (download_activity w aid fmt).1 = .httpError 401 "Not logged in. Use /login first." ∧
     (whoami w).1 = .httpError 401 "Not logged in. Use /login first.") := by
  constructor
  · refine ⟨?_, ?_, ?_, ?_⟩
    · rw [get_user_summary_trace]; simp
    · rw [get_activities_trace]; simp
    · rw [download_activity_trace]; simp
    · rw [whoami_trace]; simp
  · intro h
    have hi := instantiate_none_of_caught w h
    exact ⟨get_user_summary_401 w cdate hi, get_activities_401 w start limit atype hi,
           download_activity_401 w aid fmt hi, whoami_401 w hi⟩

/-- C2 witness: with no token store on disk, `GET /summary` returns the
no-session 401 and its trace contains no interactive credential login. -/
theorem readonly_endpoints_reuse_only_witness :
    WNL.garmin_login_token (resolveTokenstore WNL) = .error .fileNotFound ∧
    (get_user_summary WNL "2024-01-01").1 = .httpError 401 "Not logged in. Use /login first." ∧
    Effect.credentialLogin ∉ (get_user_summary WNL "2024-01-01").2 :=
  ⟨rfl,
   ((readonly_endpoints_reuse_only WNL "2024-01-01" 0 20 none "42" .TCX).2 (Or.inl rfl)).1,
   (readonly_endpoints_reuse_only WNL "2024-01-01" 0 20 none "42" .TCX).1.1⟩


/-- C3 counterexample: with `GARMINTOKENS` set to the empty string the claim
says the resolved path is that value (the empty string), but the handler
reads the per-user default path instead — Python's `or` treats the set-but-
empty variable as falsy. -/
theorem tokenstore_path_empty_env_counterexample :
    WC3.GARMINTOKENS = some "" ∧
    claimedTokenstorePath WC3 = "" ∧
    (get_user_summary WC3 "2024-01-01").2 = [Effect.readTokenstore "~/.garminconnect"] ∧
    Effect.readTokenstore (claimedTokenstorePath WC3) ∉ (get_user_summary WC3 "2024-01-01").2 := by
  refine ⟨rfl, rfl, ?_, ?_⟩ <;> decide

/-- C3 (amended): the token-store path resolves to the environment variable's
value when it is set to a non-empty string and to the fixed per-user default
otherwise; that resolved path is the one read by every reuse attempt of the
read-only handlers and of `POST /login`, and the one written on every
successful fresh login or resume. -/
theorem tokenstore_path_resolution
    (w : World) (body : LoginRequest) (rbody : ResumeLoginRequest)
    (cdate : String) (start limit : Int) (atype : Option String)
    (aid : String) (fmt : ActivityDownloadFormat) :
    (resolveTokenstore w =
      match w.GARMINTOKENS with
      | some s => if s = "" then w.expanduser_garminconnect else s
      | none => w.expanduser_garminconnect) ∧
    Effect.readTokenstore (resolveTokenstore w) ∈ (get_user_summary w cdate).2 ∧
    Effect.readTokenstore (resolveTokenstore w) ∈ (get_activities w start limit atype).2 ∧
    Effect.readTokenstore (resolveTokenstore w) ∈ (download_activity w aid fmt).2 ∧
    Effect.readTokenstore (resolveTokenstore w) ∈ (whoami w).2 ∧
    (∀ s, w.GARMINTOKENS = some s → s ≠ "" →
      Effect.readTokenstore (resolveTokenstore w) ∈ (login w body).2) ∧
    (Effect.credentialLogin ∈ (login w body).2 → (login w body).1 = .ok ⟨"ok", none⟩ →
      Effect.dumpTokens (resolveTokenstore w) ∈ (login w body).2) ∧
    ((resume_login w rbody).1 = .ok ⟨"ok", none⟩ →
      Effect.dumpTokens (resolveTokenstore w) ∈ (resume_login w rbody).2) := by
  refine ⟨?_, ?_, ?_, ?_, ?_, ?_, ?_, ?_⟩
  · simp only [resolveTokenstore, orElseStr]
  · rw [get_user_summary_trace]; simp
  · rw [get_activities_trace]; simp
  · rw [download_activity_trace]; simp
  · rw [whoami_trace]; simp
  · intro s hg hs
    rw [login_eq_reuse_some w body s hg hs, resolveTokenstore_some w s hg hs]
    rcases hi : instantiate_api_from_tokenstore w s with e | b
    · simp
    · cases b
      · rcases hc : w.garmin_login_creds body with e | ⟨t1, cs⟩
        · rw [login_after_err w body _ e hc]; simp
        · by_cases ht : t1 = "needs_mfa"
          · subst ht
            rw [login_after_needs_mfa w body _ cs hc]; simp
          · rw [login_after_ok w body _ t1 cs hc ht]; simp
      · simp
  · intro hcred hok
    have hafter : ∀ tr, (login_after_tokenstore w body tr).1 = .ok ⟨"ok", none⟩ →
        Effect.dumpTokens (resolveTokenstore w) ∈ (login_after_tokenstore w body tr).2 := by
      intro tr h1
      rcases hc : w.garmin_login_creds body with e | ⟨t1, cs⟩
      · rw [login_after_err w body tr e hc] at h1
        exfalso
        cases e <;> simp [raise_from_err] at h1
      · by_cases ht : t1 = "needs_mfa"
        · subst ht
          rw [login_after_needs_mfa w body tr cs hc] at h1
          simp at h1
        · rw [login_after_ok w body tr t1 cs hc ht]
          simp
    rcases hg : w.GARMINTOKENS with _ | s
    · rw [login_eq_fresh w body hg] at hok ⊢
      exact hafter [] hok
    · by_cases hs : s = ""
      · subst hs
        rw [login_eq_fresh_empty w body hg] at hok ⊢
        exact hafter [] hok
      · rw [login_eq_reuse_some w body s hg hs] at hcred hok ⊢
        rcases hi : instantiate_api_from_tokenstore w s with e | b <;> rw [hi] at hcred hok
        · simp at hcred
        · cases b
          · exact hafter [Effect.readTokenstore s] hok
          · simp at hcred
  · intro hok
    rcases hr : w.garmin_resume_login rbody.client_state rbody.mfa_code with e | u
    · rw [resume_login_err w rbody e hr] at hok
      exfalso
      cases e <;> simp [raise_from_err] at hok
    · rw [resume_login_success w rbody hr]
      simp

/-- C3 witness: with `GARMINTOKENS="/tokens"`, `POST /login` reads the
resolved path `/tokens`; with no `GARMINTOKENS`, a successful fresh login
writes the resolved default path, and a successful resume writes it too. -/
theorem tokenstore_path_resolution_witness :
    W0.GARMINTOKENS = some "/tokens" ∧
    Effect.readTokenstore (resolveTokenstore W0) ∈ (login W0 ⟨none, none, false, false⟩).2 ∧
    Effect.credentialLogin ∈ (login WD ⟨none, none, false, false⟩).2 ∧
    (login WD ⟨none, none, false, false⟩).1 = .ok ⟨"ok", none⟩ ∧
    Effect.dumpTokens (resolveTokenstore WD) ∈ (login WD ⟨none, none, false, false⟩).2 ∧
    (resume_login W0 ⟨⟨"cs"⟩, "123456"⟩).1 = .ok ⟨"ok", none⟩ ∧
    Effect.dumpTokens (resolveTokenstore W0) ∈ (resume_login W0 ⟨⟨"cs"⟩, "123456"⟩).2 :=
  ⟨rfl,
   (tokenstore_path_resolution W0 ⟨none, none, false, false⟩ ⟨⟨"cs"⟩, "123456"⟩
      "2024-01-01" 0 20 none "42" .TCX).2.2.2.2.2.1 "/tokens" rfl (by decide),
   by decide, by decide,
   (tokenstore_path_resolution WD ⟨none, none, false, false⟩ ⟨⟨"cs"⟩, "123456"⟩
      "2024-01-01" 0 20 none "42" .TCX).2.2.2.2.2.2.1 (by decide) (by decide),
   by decide,
   (tokenstore_path_resolution W0 ⟨none, none, false, false⟩ ⟨⟨"cs"⟩, "123456"⟩
      "2024-01-01" 0 20 none "42" .TCX).2.2.2.2.2.2.2 (by decide)⟩

/-- C9: every 200 body of `POST /login` and `POST /login/resume` has
`client_state` non-null exactly when `status` is `"needs_mfa"`; a body with
status `"ok"` always carries `client_state = null`. -/
theorem login_responses_client_state_invariant
    (w : World) (body : LoginRequest) (rbody : ResumeLoginRequest)
    (r r' : LoginResponse) :
    ((login w body).1 = .ok r →
      ((r.client_state.isSome = true ↔ r.status = "needs_mfa") ∧
       (r.status = "ok" → r.client_state = none))) ∧
    ((resume_login w rbody).1 = .ok r' →
      ((r'.client_state.isSome = true ↔ r'.status = "needs_mfa") ∧
       (r'.status = "ok" → r'.client_state = none))) := by
  constructor
  · intro h
    rcases login_ok_shape w body r h with rfl | ⟨cs, rfl⟩
    · exact ⟨by simp, fun _ => rfl⟩
    · refine ⟨by simp, fun hco => by simp at hco⟩
  · intro h
    rcases resume_ok_shape w rbody r' h with rfl
    exact ⟨by simp, fun _ => rfl⟩

/-- C9 witness: a concrete successful login and resume both return
`status = "ok"` with `client_state = null`, satisfying the invariant. -/
theorem login_responses_client_state_invariant_witness :
    (login W0 ⟨none, none, false, false⟩).1 = .ok ⟨"ok", none⟩ ∧
    ((LoginResponse.mk "ok" none).client_state.isSome = true ↔
      (LoginResponse.mk "ok" none).status = "needs_mfa") :=
  ⟨by decide,
   ((login_responses_client_state_invariant W0 ⟨none, none, false, false⟩
      ⟨⟨"cs"⟩, "123456"⟩ ⟨"ok", none⟩ ⟨"ok", none⟩).1 (by decide)).1⟩

/-- C5: when the stored-session path yields no session and the upstream
login reports that a second factor is needed, `POST /login` answers
`needs_mfa` with the non-null opaque client state and writes no tokens;
feeding that same client state with the correct one-time code to
`POST /login/resume` yields `status = "ok"`. -/
theorem login_mfa_challenge_roundtrip
    (w : World) (body : LoginRequest) (cs : ClientState) (code : String)
    (hns : noStoredSession w)
    (hmfa : w.garmin_login_creds body = .ok ("needs_mfa", cs)) :
    (login w body).1 = .ok ⟨"needs_mfa", some cs⟩ ∧
    (∀ p, Effect.dumpTokens p ∉ (login w body).2) ∧
    (w.garmin_resume_login cs code = .ok () →
      (resume_login w ⟨cs, code⟩).1 = .ok ⟨"ok", none⟩) := by
  have hres : ∀ himu : w.garmin_resume_login cs code = .ok (),
      (resume_login w ⟨cs, code⟩).1 = .ok ⟨"ok", none⟩ := by
    intro himu
    rw [resume_login_success w ⟨cs, code⟩ himu]
  have hafter : ∀ tr, login_after_tokenstore w body tr =
      (.ok ⟨"needs_mfa", some cs⟩, tr ++ [Effect.credentialLogin]) :=
    fun tr => login_after_needs_mfa w body tr cs hmfa
  rcases hg : w.GARMINTOKENS with _ | s
  · rw [login_eq_fresh w body hg, hafter []]
    exact ⟨rfl, by simp, hres⟩
  · simp only [noStoredSession, hg] at hns
    rcases hns with hns | hns
    · subst hns
      rw [login_eq_fresh_empty w body hg, hafter []]
      exact ⟨rfl, by simp, hres⟩
    · by_cases hs : s = ""
      · subst hs
        rw [login_eq_fresh_empty w body hg, hafter []]
        exact ⟨rfl, by simp, hres⟩
      · rw [login_eq_reuse_some w body s hg hs, hns, hafter [Effect.readTokenstore s]]
        exact ⟨rfl, by simp, hres⟩

/-- C5 witness: a concrete MFA login challenge and its successful resume. -/
theorem login_mfa_challenge_roundtrip_witness :
    WMFA.garmin_login_creds ⟨some "a@b.c", some "pw", false, true⟩ =
      .ok ("needs_mfa", ⟨"cs"⟩) ∧
    WMFA.garmin_resume_login ⟨"cs"⟩ "123456" = .ok () ∧
    (login WMFA ⟨some "a@b.c", some "pw", false, true⟩).1 = .ok ⟨"needs_mfa", some ⟨"cs"⟩⟩ ∧
    (resume_login WMFA ⟨⟨"cs"⟩, "123456"⟩).1 = .ok ⟨"ok", none⟩ :=
  ⟨rfl, rfl,
   (login_mfa_challenge_roundtrip WMFA ⟨some "a@b.c", some "pw", false, true⟩ ⟨"cs"⟩
      "123456" trivial rfl).1,
   (login_mfa_challenge_roundtrip WMFA ⟨some "a@b.c", some "pw", false, true⟩ ⟨"cs"⟩
      "123456" trivial rfl).2.2 rfl⟩

/-- C6: when the upstream login (or resume) itself succeeds, the request
returns `status = "ok"` even if the subsequent token-store write raises:
the dump failure is swallowed, never surfaced. -/
theorem login_persistence_best_effort
    (w : World) (body : LoginRequest) (rbody : ResumeLoginRequest)
    (t1 : String) (cs : ClientState) (e : Exc)
    (hload : ∀ s e0, w.garmin_login_token s = .error e0 →
      e0 = .fileNotFound ∨ e0 = .authError)
    (hcred : w.garmin_login_creds body = .ok (t1, cs))
    (hnm : t1 ≠ "needs_mfa")
    (hdump : w.garth_dump (resolveTokenstore w) = .error e) :
    (login w body).1 = .ok ⟨"ok", none⟩ ∧
    (w.garmin_resume_login rbody.client_state rbody.mfa_code = .ok () →
      (resume_login w rbody).1 = .ok ⟨"ok", none⟩) := by
  have hA : ∀ tr, (login_after_tokenstore w body tr).1 = .ok ⟨"ok", none⟩ := by
    intro tr
    rw [login_after_ok w body tr t1 cs hcred hnm]
  refine ⟨?_, fun hr => by rw [resume_login_success w rbody hr]⟩
  rcases hg : w.GARMINTOKENS with _ | s
  · rw [login_eq_fresh w body hg]
    exact hA []
  · by_cases hs : s = ""
    · subst hs
      rw [login_eq_fresh_empty w body hg]
      exact hA []
    · rw [login_eq_reuse_some w body s hg hs]
      rcases hi : instantiate_api_from_tokenstore w s with e' | b
    
      · obtain ⟨hl, h1, h2⟩ := instantiate_error_inv w s e' hi
        rcases hload s e' hl with h | h
        · exact absurd h h1
        · exact absurd h h2
      · cases b
        · exact hA [Effect.readTokenstore s]
        · rfl

/-- C6 witness: with a failing token-store write, a successful fresh login
and a successful resume both still return `status = "ok"`. -/
theorem login_persistence_best_effort_witness :
    WD.garmin_login_creds ⟨some "a@b.c", some "pw", false, false⟩ = .ok ("oauth1", ⟨"cs"⟩) ∧
    WD.garth_dump (resolveTokenstore WD) = .error (.other "disk full") ∧
    (login WD ⟨some "a@b.c", some "pw", false, false⟩).1 = .ok ⟨"ok", none⟩ ∧
    (resume_login WD ⟨⟨"cs"⟩, "123456"⟩).1 = .ok ⟨"ok", none⟩ :=
  ⟨rfl, rfl,
   (login_persistence_best_effort WD ⟨some "a@b.c", some "pw", false, false⟩
      ⟨⟨"cs"⟩, "123456"⟩ "oauth1" ⟨"cs"⟩ (.other "disk full")
      (fun _ _ h => Except.noConfusion h) rfl (by decide) rfl).1,
   (login_persistence_best_effort WD ⟨some "a@b.c", some "pw", false, false⟩
      ⟨⟨"cs"⟩, "123456"⟩ "oauth1" ⟨"cs"⟩ (.other "disk full")
      (fun _ _ h => Except.noConfusion h) rfl (by decide) rfl).2 rfl⟩

/-- C7: a successful download response carries the upstream raw bytes
base64-encoded, and base64-decoding the `data_base64` field recovers those
bytes exactly. -/
theorem download_base64_roundtrip
    (w : World) (aid : String) (fmt : ActivityDownloadFormat) (raw : Bytes)
    (hsess : w.garmin_login_token (resolveTokenstore w) = .ok ())
    (hdl : w.download_activity aid fmt = .ok raw) :
    ∃ resp, (download_activity w aid fmt).1 = .ok resp ∧
      resp.data_base64 = b64encode raw ∧
      b64decode resp.data_base64 = some raw := by
  have hi : instantiate_api_from_tokenstore w (resolveTokenstore w) = .ok true := by
    simp [instantiate_api_from_tokenstore, hsess]
  simp only [resolveTokenstore] at hi
  simp only [download_activity, hi, hdl]
  exact ⟨⟨aid, fmtName fmt, b64encode raw⟩, rfl, rfl, b64_roundtrip raw⟩

/-- C7 witness: downloading a concrete activity returns base64 text that
decodes back to the upstream bytes. -/
theorem download_base64_roundtrip_witness :
    W0.garmin_login_token (resolveTokenstore W0) = .ok () ∧
    W0.download_activity "42" .TCX = .ok [72, 105, 33] ∧
    ∃ resp, (download_activity W0 "42" .TCX).1 = .ok resp ∧
      resp.data_base64 = b64encode [72, 105, 33] ∧
      b64decode resp.data_base64 = some [72, 105, 33] :=
  ⟨rfl, rfl, download_base64_roundtrip W0 "42" .TCX [72, 105, 33] rfl rfl⟩

theorem login_after_dump_mem (w : World) (body : LoginRequest) (tr : List Effect)
    (p : String) (htr : ∀ q, Effect.dumpTokens q ∉ tr)
    (h : Effect.dumpTokens p ∈ (login_after_tokenstore w body tr).2) :
    p = resolveTokenstore w ∧
    (login_after_tokenstore w body tr).1 = .ok ⟨"ok", none⟩ ∧
    ∃ t, w.garmin_login_creds body = .ok t ∧ t.1 ≠ "needs_mfa" := by
  rcases hc : w.garmin_login_creds body with e | ⟨t1, cs⟩
  · rw [login_after_err w body tr e hc] at h
    simp only [List.mem_append, List.mem_singleton] at h
    rcases h with h | h
    · exact absurd h (htr p)
    · simp at h
  · by_cases ht : t1 = "needs_mfa"
    · subst ht
      rw [login_after_needs_mfa w body tr cs hc] at h
      simp only [List.mem_append, List.mem_singleton] at h
      rcases h with h | h
      · exact absurd h (htr p)
      · simp at h
    · rw [login_after_ok w body tr t1 cs hc ht] at h ⊢
      simp only [List.mem_append] at h
      rcases h with h | h
      · exact absurd h (htr p)
      · simp at h
        exact ⟨h, rfl, ⟨(t1, cs), rfl, ht⟩⟩

theorem login_dump_mem (w : World) (body : LoginRequest) (p : String)
    (h : Effect.dumpTokens p ∈ (login w body).2) :
    p = resolveTokenstore w ∧ (login w body).1 = .ok ⟨"ok", none⟩ ∧
    ∃ t, w.garmin_login_creds body = .ok t ∧ t.1 ≠ "needs_mfa" := by
  rcases hg : w.GARMINTOKENS with _ | s
  · rw [login_eq_fresh w body hg] at h ⊢
    exact login_after_dump_mem w body [] p (by simp) h
  · by_cases hs : s = ""
    · subst hs
      rw [login_eq_fresh_empty w body hg] at h ⊢
      exact login_after_dump_mem w body [] p (by simp) h
    · rw [login_eq_reuse_some w body s hg hs] at h ⊢
      rcases hi : instantiate_api_from_tokenstore w s with e | b <;> rw [hi] at h
      · simp at h
      · cases b
        · exact login_after_dump_mem w body [Effect.readTokenstore s] p (by simp) h
        · simp at h

/-- C8: the token store is written only by `POST /login` and
`POST /login/resume`, only at the resolved path, and only after the upstream
login or resume call has succeeded (for login: with a non-MFA outcome);
read-only handlers never attempt a write, and failing logins or `needs_mfa`
challenges attempt none either. -/
theorem tokenstore_write_frame
    (w : World) (body : LoginRequest) (rbody : ResumeLoginRequest)
    (cdate : String) (start limit : Int) (atype : Option String)
    (aid : String) (fmt : ActivityDownloadFormat) (p : String) :
    Effect.dumpTokens p ∉ (get_user_summary w cdate).2 ∧
    Effect.dumpTokens p ∉ (get_activities w start limit atype).2 ∧
    Effect.dumpTokens p ∉ (download_activity w aid fmt).2 ∧
    Effect.dumpTokens p ∉ (whoami w).2 ∧
    (Effect.dumpTokens p ∈ (login w body).2 →
      p = resolveTokenstore w ∧ (login w body).1 = .ok ⟨"ok", none⟩ ∧
      ∃ t, w.garmin_login_creds body = .ok t ∧ t.1 ≠ "needs_mfa") ∧
    (Effect.dumpTokens p ∈ (resume_login w rbody).2 →
      p = resolveTokenstore w ∧ (resume_login w rbody).1 = .ok ⟨"ok", none⟩ ∧
      w.garmin_resume_login rbody.client_state rbody.mfa_code = .ok ()) := by
  refine ⟨?_, ?_, ?_, ?_, login_dump_mem w body p, ?_⟩
  · rw [get_user_summary_trace]; simp
  · rw [get_activities_trace]; simp
  · rw [download_activity_trace]; simp
  · rw [whoami_trace]; simp
  · intro h
    rcases hr : w.garmin_resume_login rbody.client_state rbody.mfa_code with e | ⟨⟩
    · rw [resume_login_err w rbody e hr] at h
      simp at h
    · rw [resume_login_success w rbody hr] at h
      simp at h
      exact ⟨h, by rw [resume_login_success w rbody hr], rfl⟩

/-- C8 witness: a successful fresh login writes exactly the resolved default
path; the upstream credential login succeeded with a non-MFA outcome. -/
theorem tokenstore_write_frame_witness :
    Effect.dumpTokens "~/.garminconnect" ∈ (login WD ⟨none, none, false, false⟩).2 ∧
    ("~/.garminconnect" = resolveTokenstore WD ∧
      (login WD ⟨none, none, false, false⟩).1 = .ok ⟨"ok", none⟩ ∧
      ∃ t, WD.garmin_login_creds ⟨none, none, false, false⟩ = .ok t ∧ t.1 ≠ "needs_mfa") ∧
    Effect.dumpTokens "~/.garminconnect" ∉ (get_user_summary WD "2024-01-01").2 :=
  ⟨by decide,
   (tokenstore_write_frame WD ⟨none, none, false, false⟩ ⟨⟨"cs"⟩, "123456"⟩
      "2024-01-01" 0 20 none "42" .TCX "~/.garminconnect").2.2.2.2.1 (by decide),
   (tokenstore_write_frame WD ⟨none, none, false, false⟩ ⟨⟨"cs"⟩, "123456"⟩
      "2024-01-01" 0 20 none "42" .TCX "~/.garminconnect").1⟩
